import Mathlib

/-!
Shallow embedding of the ZeroPass Firewall Simulator backend
(src/backend/main.py). Python float timestamps are modelled as integers,
Python dicts as association lists, and the two external collaborator
modules (re and ipaddress) as abstract engine structures that are
parameters of the evaluation. Reason strings that the source builds by
printing a Python set (the OAuth2 missing-scope list) are represented
through a canonical enumeration of that set, since the iteration order
of a CPython set is implementation defined.
-/

namespace ZeroPass

/-- JSON-style values occurring in decoded JWT claim payloads. The
fragment str/num/null is closed under the equality tests the source
performs, and Python equality on it agrees with structural equality. -/
inductive JValue where
  | str (s : String)
  | num (n : Int)
  | null
deriving DecidableEq

/-- A decoded claim payload: a Python dict, modelled as an association
list with the dict insertion order. -/
abbrev Claims := List (String × JValue)

/-- A bearer token as the simulator sees it: jwt.decode either raises
InvalidTokenError (the token is unparsable) or yields a claim dict. -/
inductive Token where
  | invalid (err : String)
  | valid (claims : Claims)
deriving DecidableEq

/-- Association-list lookup, modelling Python dict.get(key). -/
def assoc {α : Type} : List (String × α) → String → Option α
  | [], _ => none
  | (k, v) :: rest, key => if k = key then some v else assoc rest key

/-- Abstract model of the Python re module: ok tells whether a pattern
compiles (re.error is raised otherwise) and search gives the result of
re.search for a pattern that compiles. -/
structure RegexEngine where
  ok : String → Bool
  search : String → String → Bool

/-- re.search on a pattern and subject: none models the re.error raise,
some b the boolean outcome of the search. -/
def pySearch (e : RegexEngine) (pat s : String) : Option Bool :=
  if e.ok pat then some (e.search pat s) else none

/-- Abstract model of the Python ipaddress module: parseAddr models
ip_address (none is the ValueError raise), parseNet models
ip_network(_, strict=False), memNet models address-in-network. -/
structure IpModule where
  parseAddr : String → Option Nat
  parseNet : String → Option Nat
  memNet : Nat → Nat → Bool

/- Models: the pydantic rule classes of src/backend/main.py. -/

structure IPRule where
  type : String
  cidrs : List String
deriving DecidableEq

structure JWTRule where
  enabled : Bool
  required_claims : Option (List (String × JValue))
  issuer : Option String
  audience : Option String
deriving DecidableEq

structure OAuth2Rule where
  enabled : Bool
  required_scopes : List String
deriving DecidableEq

structure RateLimitRule where
  enabled : Bool
  requests_per_window : Nat
  window_seconds : Nat
deriving DecidableEq

structure HeaderRule where
  header_name : String
  condition : String
  value : Option String
deriving DecidableEq

structure PathRule where
  methods : List String
  path_pattern : String
  condition : String
deriving DecidableEq

structure FirewallRuleSet where
  id : String
  name : String
  description : Option String
  ip_rules : Option IPRule
  jwt_validation : Option JWTRule
  oauth2_validation : Option OAuth2Rule
  rate_limiting : Option RateLimitRule
  header_rules : List HeaderRule
  path_rules : List PathRule
  default_action : String
  userId : Option String
deriving DecidableEq

structure SimulationRequest where
  rule_set_id : String
  client_ip : String
  method : String
  path : String
  headers : List (String × String)
  jwt_token : Option Token
  oauth_scopes : List String
  userId : Option String
deriving DecidableEq

structure SimulationResult where
  decision : String
  matched_rule : Option String
  reason : String
  evaluation_details : List String
  userId : Option String
deriving DecidableEq

/-- validate_ip_against_cidrs (main.py lines 175-183): parse the client
address (ValueError gives False), then test the CIDR strings in order;
a ValueError while parsing a CIDR aborts the loop and gives False. -/
def cidrLoop (M : IpModule) (a : Nat) : List String → Bool
  | [] => false
  | c :: rest =>
    match M.parseNet c with
    | none => false
    | some n => if M.memNet a n then true else cidrLoop M a rest

def validate_ip_against_cidrs (M : IpModule) (ip : String) (cidrs : List String) : Bool :=
  match M.parseAddr ip with
  | none => false
  | some a => cidrLoop M a cidrs

/- JWT validation (main.py lines 185-215). The helper functions model
the successive code blocks; the Except layer carries the TypeError that
Python would raise when comparing a non-numeric exp claim to the clock
(that exception is not caught inside validate_jwt_token). -/

def claimGet (d : Claims) (k : String) : Option JValue :=
  assoc d k

/-- The required_claims loop (lines 200-205): the first violated claim
produces the failure reason. -/
def checkRequiredClaims (d : Claims) : List (String × JValue) → Option String
  | [] => none
  | (k, v) :: rest =>
    match claimGet d k with
    | none => some ("Missing required claim: " ++ k)
    | some actual =>
      if actual = v then checkRequiredClaims d rest
      else some ("Invalid claim value for " ++ k)

/-- The expiration block (lines 207-210): now > exp fails. A non-numeric
exp would raise a TypeError (modelled by the error branch). -/
def validateExp (now : Int) (d : Claims) : Except String (Bool × String) :=
  match claimGet d "exp" with
  | none => .ok (true, "JWT validation passed")
  | some (.num n) =>
    if n < now then .ok (false, "Token expired")
    else .ok (true, "JWT validation passed")
  | some _ => .error "TypeError: unorderable exp claim"

def validateClaims (now : Int) (d : Claims) (j : JWTRule) : Except String (Bool × String) :=
  match j.required_claims with
  | none => validateExp now d
  | some rc =>
    match checkRequiredClaims d rc with
    | some reason => .ok (false, reason)
    | none => validateExp now d

/-- The audience block (lines 195-197). Python truthiness: an audience
that is None or the empty string skips the check. -/
def validateAud (now : Int) (d : Claims) (j : JWTRule) : Except String (Bool × String) :=
  match j.audience with
  | none => validateClaims now d j
  | some aud =>
    if aud ≠ "" ∧ claimGet d "aud" ≠ some (.str aud) then
      .ok (false, "Invalid audience. Expected: " ++ aud)
    else validateClaims now d j

def validate_jwt_token (now : Int) (tok : Token) (j : JWTRule) : Except String (Bool × String) :=
  match tok with
  | .invalid e => .ok (false, "Invalid JWT token: " ++ e)
  | .valid d =>
    match j.issuer with
    | none => validateAud now d j
    | some iss =>
      if iss ≠ "" ∧ claimGet d "iss" ≠ some (.str iss) then
        .ok (false, "Invalid issuer. Expected: " ++ iss)
      else validateAud now d j

/- Rate limiter (main.py lines 217-240). The global rate_limit_store is
threaded explicitly; the requests list of an absent key reads as []. -/

abbrev Store := List (String × List Int)

def storeGet : Store → String → List Int
  | [], _ => []
  | (k, v) :: rest, key => if k = key then v else storeGet rest key

def storeSet : Store → String → List Int → Store
  | [], key, v => [(key, v)]
  | (k, w) :: rest, key, v =>
    if k = key then (key, v) :: rest else (k, w) :: storeSet rest key v

def rateKey (rule_set_id client_ip : String) : String :=
  rule_set_id ++ ":" ++ client_ip

def rateFailMsg (rr : RateLimitRule) : String :=
  "Rate limit exceeded: " ++ toString rr.requests_per_window ++
    " requests per " ++ toString rr.window_seconds ++ " seconds"

def ratePassMsg (rr : RateLimitRule) (n : Nat) : String :=
  "Rate limit check passed: " ++ toString n ++ "/" ++ toString rr.requests_per_window

/-- check_rate_limit: prune timestamps at or before now - window, fail
without appending when the pruned count reaches the limit, otherwise
append now. The pruned list is written back in both cases. -/
def check_rate_limit (now : Int) (client_ip rule_set_id : String) (rr : RateLimitRule)
    (store : Store) : (Bool × String) × Store :=
  let key := rateKey rule_set_id client_ip
  let pruned := (storeGet store key).filter (fun t => now - (rr.window_seconds : Int) < t)
  if rr.requests_per_window ≤ pruned.length then
    ((false, rateFailMsg rr), storeSet store key pruned)
  else
    ((true, ratePassMsg rr (pruned.length + 1)), storeSet store key (pruned ++ [now]))

/-- A sequence of chargeable checks for one key, returning the outcome
of each check and the final store. -/
def runChecks (rr : RateLimitRule) (client_ip rule_set_id : String) :
    List Int → Store → List Bool × Store
  | [], s => ([], s)
  | t :: ts, s =>
    let r := check_rate_limit t client_ip rule_set_id rr s
    let rest := runChecks rr client_ip rule_set_id ts r.2
    (r.1.1 :: rest.1, rest.2)

/- Header matcher (main.py lines 242-269). The value of an Option
String prints as Python would print it inside an f-string. -/

def optStr : Option String → String
  | none => "None"
  | some s => s

/-- Worker for substring containment: does ns occur inside the second
list at any position. -/
def substrAux (ns : List Char) : List Char → Bool
  | [] => ns.isEmpty
  | c :: rest => ns.isPrefixOf (c :: rest) || substrAux ns rest

/-- Substring containment, modelling the Python in operator on str. -/
def strContains (hay needle : String) : Bool :=
  substrAux needle.data hay.data

/-- validate_header_rule: the none result models the implicit Python
fall-through (returning None) when the condition string matches none of
the four handled conditions. -/
def validate_header_rule (e : RegexEngine) (headers : List (String × String))
    (hr : HeaderRule) : Option (Bool × String) :=
  let hv := assoc headers hr.header_name
  if hr.condition = "exists" then
    match hv with
    | none => some (false, "Header " ++ hr.header_name ++ " does not exist")
    | some _ => some (true, "Header " ++ hr.header_name ++ " exists")
  else
    match hv with
    | none => some (false, "Header " ++ hr.header_name ++ " not found")
    | some v =>
      if hr.condition = "equals" then
        if some v = hr.value then
          some (true, "Header " ++ hr.header_name ++ " equals " ++ optStr hr.value)
        else
          some (false, "Header " ++ hr.header_name ++ " does not equal " ++ optStr hr.value)
      else if hr.condition = "contains" then
        match hr.value with
        | none => some (false, "Header " ++ hr.header_name ++ " does not contain None")
        | some pat =>
          if pat ≠ "" ∧ strContains v pat then
            some (true, "Header " ++ hr.header_name ++ " contains " ++ pat)
          else
            some (false, "Header " ++ hr.header_name ++ " does not contain " ++ pat)
      else if hr.condition = "regex" then
        match hr.value with
        | none => some (false, "Header " ++ hr.header_name ++ " does not match regex None")
        | some pat =>
          if pat = "" then
            some (false, "Header " ++ hr.header_name ++ " does not match regex ")
          else
            match pySearch e pat v with
            | none => some (false, "Invalid regex pattern: " ++ pat)
            | some true => some (true, "Header " ++ hr.header_name ++ " matches regex " ++ pat)
            | some false => some (false, "Header " ++ hr.header_name ++ " does not match regex " ++ pat)
      else none

/-- ASCII upper-case code of a character, modelling str.upper on the
ASCII method names the source compares. -/
def charUpper (c : Char) : Nat :=
  if 97 ≤ c.toNat ∧ c.toNat ≤ 122 then c.toNat - 32 else c.toNat

/-- Case-insensitive comparison key of a method name. -/
def upperKey (s : String) : List Nat :=
  s.data.map charUpper

/-- path.startswith(pattern). -/
def pyStartsWith (s p : String) : Bool :=
  p.data.isPrefixOf s.data

/-- validate_path_rule (main.py lines 271-293): method restriction,
then the condition chain; unrecognized conditions fall through. -/
def validate_path_rule (e : RegexEngine) (method path : String)
    (pr : PathRule) : Option (Bool × String) :=
  if pr.methods ≠ [] ∧ ¬ (pr.methods.map upperKey).contains (upperKey method) then
    some (false, "Method " ++ method ++ " not in allowed methods: " ++ toString pr.methods)
  else if pr.condition = "equals" then
    if path = pr.path_pattern then
      some (true, "Path " ++ path ++ " equals " ++ pr.path_pattern)
    else
      some (false, "Path " ++ path ++ " does not equal " ++ pr.path_pattern)
  else if pr.condition = "prefix" then
    if pyStartsWith path pr.path_pattern then
      some (true, "Path " ++ path ++ " starts with " ++ pr.path_pattern)
    else
      some (false, "Path " ++ path ++ " does not start with " ++ pr.path_pattern)
  else if pr.condition = "regex" then
    match pySearch e pr.path_pattern path with
    | none => some (false, "Invalid regex pattern: " ++ pr.path_pattern)
    | some true => some (true, "Path " ++ path ++ " matches regex " ++ pr.path_pattern)
    | some false => some (false, "Path " ++ path ++ " does not match regex " ++ pr.path_pattern)
  else none

/-- set(required_scopes) - set(oauth_scopes) (main.py lines 701-703),
represented by its canonical enumeration in required-scopes order; the
source obtains some hash-determined enumeration of the same set. -/
def missing_scopes (required provided : List String) : List String :=
  (required.filter (fun s => decide (s ∉ provided))).dedup

/- The evaluation core of the simulate endpoint (main.py lines 611-816),
split into one definition per code block. Each stage either produces a
terminal blocked SimulationResult (Sum.inl) or passes, handing the
accumulated evaluation_details to the next stage (Sum.inr). -/

def blockedResult (rule reason : String) (details : List String) (uid : String) :
    SimulationResult :=
  ⟨"BLOCKED", some rule, reason, details, some uid⟩

/-- IP rules stage (lines 614-656). -/
def ipStep (M : IpModule) (rs : FirewallRuleSet) (sim : SimulationRequest)
    (uid : String) : Sum SimulationResult (List String) :=
  match rs.ip_rules with
  | none => .inr []
  | some ipr =>
    let m := validate_ip_against_cidrs M sim.client_ip ipr.cidrs
    if ipr.type = "block" ∧ m = true then
      .inl (blockedResult "ip_rules" ("IP " ++ sim.client_ip ++ " is in blocked CIDR list") [] uid)
    else if ipr.type = "allow" ∧ m = false then
      .inl (blockedResult "ip_rules" ("IP " ++ sim.client_ip ++ " is not in allowed CIDR list") [] uid)
    else .inr ["IP rule check passed for " ++ sim.client_ip]

/-- JWT stage (lines 658-697). -/
def jwtStep (now : Int) (rs : FirewallRuleSet) (sim : SimulationRequest)
    (uid : String) (details : List String) :
    Except String (Sum SimulationResult (List String)) :=
  match rs.jwt_validation with
  | none => .ok (.inr details)
  | some j =>
    if j.enabled then
      match sim.jwt_token with
      | none => .ok (.inl (blockedResult "jwt_validation" "JWT token required but not provided" details uid))
      | some tok =>
        match validate_jwt_token now tok j with
        | .error s => .error s
        | .ok (false, r) => .ok (.inl (blockedResult "jwt_validation" r details uid))
        | .ok (true, r) => .ok (.inr (details ++ [r]))
    else .ok (.inr details)

/-- OAuth2 stage (lines 699-723). -/
def oauthStep (rs : FirewallRuleSet) (sim : SimulationRequest)
    (uid : String) (details : List String) : Sum SimulationResult (List String) :=
  match rs.oauth2_validation with
  | none => .inr details
  | some o =>
    if o.enabled then
      let missing := missing_scopes o.required_scopes sim.oauth_scopes
      if missing.isEmpty then
        .inr (details ++ ["OAuth2 scope validation passed: " ++ toString sim.oauth_scopes.dedup])
      else
        .inl (blockedResult "oauth2_validation"
          ("Missing required OAuth2 scopes: " ++ toString missing) details uid)
    else .inr details

/-- Rate limiting stage (lines 725-750): the only stage that reads or
writes the rate-limit store. -/
def rateStep (now : Int) (rs : FirewallRuleSet) (sim : SimulationRequest)
    (uid : String) (details : List String) (store : Store) :
    (Sum SimulationResult (List String)) × Store :=
  match rs.rate_limiting with
  | none => (.inr details, store)
  | some rr =>
    if rr.enabled then
      let r := check_rate_limit now sim.client_ip sim.rule_set_id rr store
      if r.1.1 then (.inr (details ++ [r.1.2]), r.2)
      else (.inl (blockedResult "rate_limiting" r.1.2 details uid), r.2)
    else (.inr details, store)

/-- Header rules loop (lines 752-772). -/
def headerSteps (e : RegexEngine) (sim : SimulationRequest) (uid : String) :
    List HeaderRule → List String → Except String (Sum SimulationResult (List String))
  | [], details => .ok (.inr details)
  | hr :: rest, details =>
    match validate_header_rule e sim.headers hr with
    | none => .error "TypeError: header rule fall-through"
    | some (false, r) => .ok (.inl (blockedResult "header_rules" r details uid))
    | some (true, r) => headerSteps e sim uid rest (details ++ [r])

/-- Path rules loop (lines 774-794). -/
def pathSteps (e : RegexEngine) (sim : SimulationRequest) (uid : String) :
    List PathRule → List String → Except String (Sum SimulationResult (List String))
  | [], details => .ok (.inr details)
  | pr :: rest, details =>
    match validate_path_rule e sim.method sim.path pr with
    | none => .error "TypeError: path rule fall-through"
    | some (false, r) => .ok (.inl (blockedResult "path_rules" r details uid))
    | some (true, r) => pathSteps e sim uid rest (details ++ [r])

/-- Default action (lines 796-804). -/
def defaultStep (rs : FirewallRuleSet) (uid : String) (details : List String) :
    SimulationResult :=
  ⟨if rs.default_action = "allow" then "ALLOWED" else "BLOCKED",
   some "default_action",
   "All rules passed, applying default action: " ++ rs.default_action,
   details, some uid⟩

/-- simulate_request evaluation core (main.py lines 611-816), after the
ownership gate: the fixed chain IP, JWT, OAuth2, rate limit, header
rules, path rules, default action, threading the rate-limit store. The
error branch models an exception escaping to the generic 500 handler. -/
def simulate_request (M : IpModule) (e : RegexEngine) (now : Int)
    (rs : FirewallRuleSet) (sim : SimulationRequest) (uid : String)
    (store : Store) : Except String (SimulationResult × Store) :=
  match ipStep M rs sim uid with
  | .inl res => .ok (res, store)
  | .inr d1 =>
    match jwtStep now rs sim uid d1 with
    | .error s => .error s
    | .ok (.inl res) => .ok (res, store)
    | .ok (.inr d2) =>
      match oauthStep rs sim uid d2 with
      | .inl res => .ok (res, store)
      | .inr d3 =>
        match rateStep now rs sim uid d3 store with
        | (.inl res, store1) => .ok (res, store1)
        | (.inr d4, store1) =>
          match headerSteps e sim uid rs.header_rules d4 with
          | .error s => .error s
          | .ok (.inl res) => .ok (res, store1)
          | .ok (.inr d5) =>
            match pathSteps e sim uid rs.path_rules d5 with
            | .error s => .error s
            | .ok (.inl res) => .ok (res, store1)
            | .ok (.inr d6) => .ok (defaultStep rs uid d6, store1)

/- Scenario test runner (main.py lines 995-1124). A test request is a
JSON object read with .get and per-field defaults; the reduced replay
(lines 1051-1078) consults only the IP rule (block mode only), the JWT
rule and the default action. -/

structure ScenarioTestRequest where
  client_ip : Option String
  method : Option String
  path : Option String
  headers : Option (List (String × String))
  jwt_token : Option Token
  oauth_scopes : Option (List String)
  description : Option String
deriving DecidableEq

/-- Building the SimulationRequest from a test request (lines 1036-1045). -/
def mkSimRequest (rule_set_id uid : String) (tr : ScenarioTestRequest) :
    SimulationRequest :=
  ⟨rule_set_id, tr.client_ip.getD "192.168.1.100", tr.method.getD "GET",
   tr.path.getD "/", tr.headers.getD [], tr.jwt_token,
   tr.oauth_scopes.getD [], some uid⟩

/-- Reduced replay, IP part (lines 1051-1061): only block mode is
checked; the state is (decision, matched_rule, reason). -/
def scenarioIp (M : IpModule) (rs : FirewallRuleSet) (req : SimulationRequest) :
    String × String × String :=
  match rs.ip_rules with
  | none => ("ALLOWED", "default_action", "Default action applied")
  | some ipr =>
    if ipr.type = "block" ∧ validate_ip_against_cidrs M req.client_ip ipr.cidrs = true then
      ("BLOCKED", "ip_rules", "IP blocked by IP rules")
    else ("ALLOWED", "default_action", "Default action applied")

/-- Reduced replay, JWT part (lines 1063-1074). -/
def scenarioJwt (now : Int) (rs : FirewallRuleSet) (req : SimulationRequest)
    (st : String × String × String) : Except String (String × String × String) :=
  match rs.jwt_validation with
  | none => .ok st
  | some j =>
    if j.enabled then
      match req.jwt_token with
      | none => .ok ("BLOCKED", "jwt_validation", "JWT token required but not provided")
      | some tok =>
        match validate_jwt_token now tok j with
        | .error s => .error s
        | .ok (false, r) => .ok ("BLOCKED", "jwt_validation", r)
        | .ok (true, _) => .ok st
    else .ok st

/-- Reduced replay, default action part (lines 1076-1078): matched_rule
and reason are left as they are. -/
def scenarioDefault (rs : FirewallRuleSet) (st : String × String × String) :
    String × String × String :=
  if st.1 = "ALLOWED" ∧ rs.default_action = "block" then ("BLOCKED", st.2.1, st.2.2)
  else st

/-- One test request through the reduced replay. -/
def scenarioEval (M : IpModule) (now : Int) (rs : FirewallRuleSet)
    (req : SimulationRequest) : Except String (String × String × String) :=
  match scenarioJwt now rs req (scenarioIp M rs req) with
  | .error s => .error s
  | .ok st => .ok (scenarioDefault rs st)

/-- Actual decisions of the whole batch, in order; an exception in any
replay aborts the endpoint. -/
def scenarioDecisions (M : IpModule) (now : Int) (rs : FirewallRuleSet)
    (rid uid : String) : List ScenarioTestRequest → Except String (List String)
  | [] => .ok []
  | tr :: rest =>
    match scenarioEval M now rs (mkSimRequest rid uid tr) with
    | .error s => .error s
    | .ok st =>
      match scenarioDecisions M now rs rid uid rest with
      | .error s => .error s
      | .ok ds => .ok (st.1 :: ds)

/-- Comparison loop (lines 1032-1083): position i of the decisions is
compared with expected_results[i], defaulting to BLOCKED past the end. -/
def countPassed : List String → List String → Nat
  | [], _ => 0
  | d :: ds, es => (if d = es.getD 0 "BLOCKED" then 1 else 0) + countPassed ds (es.drop 1)

structure ScenarioScore where
  total_tests : Nat
  passed_tests : Nat
  failed_tests : Nat
  coverage_score : ℚ
deriving DecidableEq

/-- coverage_score (line 1099), with exact rational arithmetic standing
in for Python floats. -/
def coverageScore (passed total : Nat) : ℚ :=
  if 0 < total then ((passed : ℚ) / (total : ℚ)) * 100 else 0

/-- test_exploit_scenario, scoring part (lines 1028-1112), after the
access gates. -/
def test_exploit_scenario (M : IpModule) (now : Int) (rs : FirewallRuleSet)
    (rid uid : String) (tests : List ScenarioTestRequest) (expected : List String) :
    Except String ScenarioScore :=
  match scenarioDecisions M now rs rid uid tests with
  | .error s => .error s
  | .ok ds =>
    let total := tests.length
    let passed := countPassed ds expected
    .ok ⟨total, passed, total - passed, coverageScore passed total⟩

/- Ownership gates of the HTTP endpoints. Stored rule sets are
modelled by their userId field (a dict .get result), keyed by id. -/

abbrev RulesStore := List (String × Option String)

/-- get_rule_set gate (main.py lines 543-553): a missing id and an id
owned by someone else both give 404. -/
def get_rule_set (rules : RulesStore) (id uid : String) : Except Nat (Option String) :=
  match assoc rules id with
  | none => .error 404
  | some owner => if owner ≠ some uid then .error 404 else .ok owner

/-- delete_rule_set (lines 568-579), with the same 404 collapse. -/
def delete_rule_set (rules : RulesStore) (id uid : String) : Except Nat RulesStore :=
  match assoc rules id with
  | none => .error 404
  | some owner =>
    if owner ≠ some uid then .error 404
    else .ok (rules.filter (fun p => p.1 != id))

/-- Ownership gate of the simulate endpoint (lines 601-609). -/
def simulate_gate (rules : RulesStore) (id uid : String) : Except Nat (Option String) :=
  match assoc rules id with
  | none => .error 404
  | some owner => if owner ≠ some uid then .error 404 else .ok owner

/-- The visibility-relevant fields of a rule template or exploit
scenario. -/
structure PubOwned where
  is_public : Bool
  userId : Option String
deriving DecidableEq

/-- get_rule_template gate (lines 893-899): 404 when missing, 403 when
present but neither public nor owned by the caller. -/
def get_rule_template (tmpls : List (String × PubOwned)) (id uid : String) :
    Except Nat PubOwned :=
  match assoc tmpls id with
  | none => .error 404
  | some t =>
    if t.is_public = false ∧ t.userId ≠ some uid then .error 403 else .ok t

/-- apply_rule_template gate (lines 916-922), identical shape. -/
def apply_rule_template (tmpls : List (String × PubOwned)) (id uid : String) :
    Except Nat PubOwned :=
  match assoc tmpls id with
  | none => .error 404
  | some t =>
    if t.is_public = false ∧ t.userId ≠ some uid then .error 403 else .ok t

/-- get_exploit_scenario gate (lines 979-985), identical shape; the
same check also guards the scenario test endpoint (lines 1007-1012). -/
def get_exploit_scenario (scens : List (String × PubOwned)) (id uid : String) :
    Except Nat PubOwned :=
  match assoc scens id with
  | none => .error 404
  | some t =>
    if t.is_public = false ∧ t.userId ≠ some uid then .error 403 else .ok t

/- Side conditions and spec-side predicates for the JWT claim. -/

/-- The exp claim, when present, is numeric, so that the Python
comparison against the clock cannot raise. -/
def expOkClaims (d : Claims) : Bool :=
  match claimGet d "exp" with
  | none => true
  | some (.num _) => true
  | some _ => false

def expOkToken : Token → Bool
  | .invalid _ => true
  | .valid d => expOkClaims d

/-- Failure condition exactly as the claim words it: issuer and
audience checks apply whenever the optional field is set. -/
def jwtFailSpec (now : Int) (tok : Token) (j : JWTRule) : Prop :=
  match tok with
  | .invalid _ => True
  | .valid d =>
    (∃ iss, j.issuer = some iss ∧ claimGet d "iss" ≠ some (.str iss)) ∨
    (∃ aud, j.audience = some aud ∧ claimGet d "aud" ≠ some (.str aud)) ∨
    (∃ rc, j.required_claims = some rc ∧ ∃ kv ∈ rc, claimGet d kv.1 ≠ some kv.2) ∨
    (∃ n, claimGet d "exp" = some (.num n) ∧ n < now)

/-- Amended failure condition: issuer and audience checks apply only
when the field is set to a non-empty string, matching the Python
truthiness tests in the source. -/
def jwtFailCond (now : Int) (tok : Token) (j : JWTRule) : Prop :=
  match tok with
  | .invalid _ => True
  | .valid d =>
    (∃ iss, j.issuer = some iss ∧ iss ≠ "" ∧ claimGet d "iss" ≠ some (.str iss)) ∨
    (∃ aud, j.audience = some aud ∧ aud ≠ "" ∧ claimGet d "aud" ≠ some (.str aud)) ∨
    (∃ rc, j.required_claims = some rc ∧ ∃ kv ∈ rc, claimGet d kv.1 ≠ some kv.2) ∨
    (∃ n, claimGet d "exp" = some (.num n) ∧ n < now)

/- Concrete collaborator instances used to instantiate universally
quantified theorems at closed inputs. reStub records that the pattern
consisting of a lone opening square bracket does not compile (in
CPython it raises re.error: unterminated character set). ipStub records
that 10.1.2.3 parses and lies in 10.0.0.0/8. -/

def reStub : RegexEngine :=
  ⟨fun p => p != "[", fun _ _ => false⟩

def ipStub : IpModule :=
  ⟨fun s => if s = "10.1.2.3" then some 1 else none,
   fun s => if s = "10.0.0.0/8" then some 1 else none,
   fun a n => a == n⟩

/-- Whether the rate-limit stage is configured off (absent or
enabled=False). -/
def rateOff : Option RateLimitRule → Bool
  | none => true
  | some rr => !rr.enabled

/-- Whether the JWT stage is configured off. -/
def jwtOff : Option JWTRule → Bool
  | none => true
  | some j => !j.enabled

/-- Whether the OAuth2 stage is configured off. -/
def oauthOff : Option OAuth2Rule → Bool
  | none => true
  | some o => !o.enabled

/- Concrete fixtures used to instantiate the theorems at closed inputs. -/

def policyNoRules (da : String) : FirewallRuleSet :=
  ⟨"p1", "empty", none, none, none, none, none, [], [], da, none⟩

def policyIpBlock : FirewallRuleSet :=
  ⟨"p2", "ipblock", none, some ⟨"block", ["10.0.0.0/8"]⟩, none, none, none, [], [], "allow", none⟩

/-- Same IP rule, JWT rule and default action as policyNoRules "block",
but with OAuth2, rate-limit, header and path rules added. -/
def policyExtras : FirewallRuleSet :=
  ⟨"p1", "empty", none, none, none, some ⟨true, ["admin"]⟩, some ⟨true, 1, 60⟩,
   [⟨"H", "equals", some "x"⟩], [⟨[], "/a", "prefix"⟩], "block", none⟩

def policyOauth : FirewallRuleSet :=
  ⟨"p3", "oauth", none, none, none, some ⟨true, ["scope_b", "scope_a"]⟩, none,
   [], [], "allow", none⟩

def reqStub : SimulationRequest :=
  ⟨"p1", "1.2.3.4", "GET", "/", [], none, [], none⟩

def reqIp : SimulationRequest :=
  ⟨"p2", "10.1.2.3", "GET", "/", [], none, [], none⟩

def trStub : ScenarioTestRequest :=
  ⟨none, none, none, none, none, none, none⟩

/- Theorems. -/

theorem rateStep_off (now : Int) (rs : FirewallRuleSet) (sim : SimulationRequest)
    (uid : String) (d : List String) (s : Store) (h : rateOff rs.rate_limiting = true) :
    rateStep now rs sim uid d s = (.inr d, s) := by
  cases hr : rs.rate_limiting with
  | none => simp [rateStep, hr]
  | some rr =>
    have he : rr.enabled = false := by
      rw [hr] at h
      simpa [rateOff] using h
    simp [rateStep, hr, he]

theorem jwtStep_off (now : Int) (rs : FirewallRuleSet) (sim : SimulationRequest)
    (uid : String) (d : List String) (h : jwtOff rs.jwt_validation = true) :
    jwtStep now rs sim uid d = .ok (.inr d) := by
  cases hj : rs.jwt_validation with
  | none => simp [jwtStep, hj]
  | some j =>
    have he : j.enabled = false := by
      rw [hj] at h
      simpa [jwtOff] using h
    simp [jwtStep, hj, he]

theorem oauthStep_off (rs : FirewallRuleSet) (sim : SimulationRequest)
    (uid : String) (d : List String) (h : oauthOff rs.oauth2_validation = true) :
    oauthStep rs sim uid d = .inr d := by
  cases ho : rs.oauth2_validation with
  | none => simp [oauthStep, ho]
  | some o =>
    have he : o.enabled = false := by
      rw [ho] at h
      simpa [oauthOff] using h
    simp [oauthStep, ho, he]

theorem ipStep_blocked (M : IpModule) (rs : FirewallRuleSet) (sim : SimulationRequest)
    (uid : String) (ipr : IPRule) (hip : rs.ip_rules = some ipr)
    (h : (ipr.type = "block" ∧ validate_ip_against_cidrs M sim.client_ip ipr.cidrs = true) ∨
      (ipr.type = "allow" ∧ validate_ip_against_cidrs M sim.client_ip ipr.cidrs = false)) :
    ∃ reason, ipStep M rs sim uid = .inl (blockedResult "ip_rules" reason [] uid) := by
  rcases h with ⟨ht, hm⟩ | ⟨ht, hm⟩
  · exact ⟨"IP " ++ sim.client_ip ++ " is in blocked CIDR list",
      by simp [ipStep, hip, ht, hm]⟩
  · exact ⟨"IP " ++ sim.client_ip ++ " is not in allowed CIDR list",
      by simp [ipStep, hip, ht, hm]⟩

/-- Claim C2: when the IP rule blocks (block mode with a matching
address, or allow mode with no matching address), evaluation stops at
the IP stage: the result is BLOCKED with matched_rule ip_rules, the
evaluation_details list is empty (so no header-rule or path-rule
explanation occurs in it), and the rate-limit store is returned
unchanged, so no slot is consumed for any key. -/
theorem C2_ip_block_short_circuit (M : IpModule) (e : RegexEngine) (now : Int)
    (rs : FirewallRuleSet) (sim : SimulationRequest) (uid : String) (store : Store)
    (ipr : IPRule) (hip : rs.ip_rules = some ipr)
    (h : (ipr.type = "block" ∧ validate_ip_against_cidrs M sim.client_ip ipr.cidrs = true) ∨
      (ipr.type = "allow" ∧ validate_ip_against_cidrs M sim.client_ip ipr.cidrs = false)) :
    ∃ res, simulate_request M e now rs sim uid store = .ok (res, store) ∧
      res.decision = "BLOCKED" ∧ res.matched_rule = some "ip_rules" ∧
      res.evaluation_details = [] := by
  obtain ⟨reason, hstep⟩ := ipStep_blocked M rs sim uid ipr hip h
  exact ⟨blockedResult "ip_rules" reason [] uid, by simp [simulate_request, hstep],
    rfl, rfl, rfl⟩

/-- Witness for C2: the fixture policy blocks 10.0.0.0/8 and the
request comes from 10.1.2.3. -/
theorem C2_ip_block_short_circuit_witness :
    ∃ res, simulate_request ipStub reStub 0 policyIpBlock reqIp "u" [] = .ok (res, []) ∧
      res.decision = "BLOCKED" ∧ res.matched_rule = some "ip_rules" ∧
      res.evaluation_details = [] :=
  C2_ip_block_short_circuit ipStub reStub 0 policyIpBlock reqIp "u" []
    ⟨"block", ["10.0.0.0/8"]⟩ rfl (Or.inl ⟨rfl, by rfl⟩)

/-- Claim C3: a policy with no rules configured yields the decision of
its default_action with matched_rule default_action and an empty
evaluation_details list, on any request. -/
theorem C3_default_action (M : IpModule) (e : RegexEngine) (now : Int)
    (rs : FirewallRuleSet) (sim : SimulationRequest) (uid : String) (store : Store)
    (h1 : rs.ip_rules = none) (h2 : jwtOff rs.jwt_validation = true)
    (h3 : oauthOff rs.oauth2_validation = true) (h4 : rateOff rs.rate_limiting = true)
    (h5 : rs.header_rules = []) (h6 : rs.path_rules = []) :
    ∃ res, simulate_request M e now rs sim uid store = .ok (res, store) ∧
      res.evaluation_details = [] ∧ res.matched_rule = some "default_action" ∧
      (rs.default_action = "allow" → res.decision = "ALLOWED") ∧
      (rs.default_action = "block" → res.decision = "BLOCKED") := by
  have hi : ipStep M rs sim uid = .inr [] := by simp [ipStep, h1]
  have hj := jwtStep_off now rs sim uid [] h2
  have ho := oauthStep_off rs sim uid [] h3
  have hrt := rateStep_off now rs sim uid [] store h4
  refine ⟨defaultStep rs uid [], ?_, rfl, rfl, ?_, ?_⟩
  · simp [simulate_request, hi, hj, ho, hrt, h5, h6, headerSteps, pathSteps]
  · intro hda
    simp [defaultStep, hda]
  · intro hda
    simp [defaultStep, hda]

/-- Witness for C3: the empty policy with default allow, and with
default block, on a fixture request. -/
theorem C3_default_action_witness :
    (∃ res, simulate_request ipStub reStub 0 (policyNoRules "allow") reqStub "u" [] =
        .ok (res, []) ∧
      res.evaluation_details = [] ∧ res.matched_rule = some "default_action" ∧
      ((policyNoRules "allow").default_action = "allow" → res.decision = "ALLOWED") ∧
      ((policyNoRules "allow").default_action = "block" → res.decision = "BLOCKED")) ∧
    (∃ res, simulate_request ipStub reStub 0 (policyNoRules "block") reqStub "u" [] =
        .ok (res, []) ∧
      res.evaluation_details = [] ∧ res.matched_rule = some "default_action" ∧
      ((policyNoRules "block").default_action = "allow" → res.decision = "ALLOWED") ∧
      ((policyNoRules "block").default_action = "block" → res.decision = "BLOCKED")) :=
  ⟨C3_default_action ipStub reStub 0 (policyNoRules "allow") reqStub "u" []
      rfl rfl rfl rfl rfl rfl,
    C3_default_action ipStub reStub 0 (policyNoRules "block") reqStub "u" []
      rfl rfl rfl rfl rfl rfl⟩

/-- Claim C9: with the rate-limit rule absent or disabled, the
simulation result does not depend on the rate-limit store at all, so
evaluating the same request twice (at the same evaluation-time clock)
yields identical SimulationResults, whatever state the first run left
behind. -/
theorem C9_idempotent_without_rate_limit (M : IpModule) (e : RegexEngine) (now : Int)
    (rs : FirewallRuleSet) (sim : SimulationRequest) (uid : String) (s1 s2 : Store)
    (h : rateOff rs.rate_limiting = true) :
    Except.map Prod.fst (simulate_request M e now rs sim uid s1) =
      Except.map Prod.fst (simulate_request M e now rs sim uid s2) := by
  unfold simulate_request
  cases ipStep M rs sim uid with
  | inl res => rfl
  | inr d1 =>
    dsimp only
    cases jwtStep now rs sim uid d1 with
    | error s => rfl
    | ok x =>
      cases x with
      | inl res => rfl
      | inr d2 =>
        dsimp only
        cases oauthStep rs sim uid d2 with
        | inl res => rfl
        | inr d3 =>
          dsimp only
          rw [rateStep_off now rs sim uid d3 s1 h, rateStep_off now rs sim uid d3 s2 h]
          dsimp only
          cases headerSteps e sim uid rs.header_rules d3 with
          | error s => rfl
          | ok y =>
            cases y with
            | inl res => rfl
            | inr d5 =>
              dsimp only
              cases pathSteps e sim uid rs.path_rules d5 with
              | error s => rfl
              | ok z =>
                cases z with
                | inl res => rfl
                | inr d6 => rfl

/-- Witness for C9: the empty allow policy evaluated against the empty
store and against a store holding previous traffic for the same key. -/
theorem C9_idempotent_without_rate_limit_witness :
    Except.map Prod.fst
        (simulate_request ipStub reStub 0 (policyNoRules "allow") reqStub "u" []) =
      Except.map Prod.fst
        (simulate_request ipStub reStub 0 (policyNoRules "allow") reqStub "u"
          [("p1:1.2.3.4", [0])]) :=
  C9_idempotent_without_rate_limit ipStub reStub 0 (policyNoRules "allow") reqStub "u"
    [] [("p1:1.2.3.4", [0])] rfl

/-- Claim C10: for the four condition values the HeaderRule model
admits, validate_header_rule always returns a pair; the implicit
fall-through (modelled by the none result) is unreachable. -/
theorem C10_header_rule_total (e : RegexEngine) (headers : List (String × String))
    (hr : HeaderRule)
    (h : hr.condition = "equals" ∨ hr.condition = "contains" ∨
      hr.condition = "regex" ∨ hr.condition = "exists") :
    (validate_header_rule e headers hr).isSome = true := by
  rcases h with h | h | h | h <;>
    simp only [validate_header_rule, h] <;>
    cases assoc headers hr.header_name <;>
    simp <;>
    rcases hr.value with _ | p <;>
    simp <;>
    split <;>
    simp [pySearch] <;>
    split <;>
    simp

/-- Witness for C10: an exists rule on a request without the header. -/
theorem C10_header_rule_total_witness :
    (validate_header_rule reStub [] ⟨"H", "exists", none⟩).isSome = true :=
  C10_header_rule_total reStub [] ⟨"H", "exists", none⟩ (Or.inr (Or.inr (Or.inr rfl)))

theorem storeGet_storeSet (s : Store) (k : String) (v : List Int) :
    storeGet (storeSet s k v) k = v := by
  induction s with
  | nil => simp [storeSet, storeGet]
  | cons p rest ih =>
    obtain ⟨k1, w⟩ := p
    by_cases h : k1 = k <;> simp [storeSet, storeGet, h, ih]

/-- A check whose key currently stores only timestamps inside the
window prunes nothing, so it reduces to the limit test on the stored
list itself. -/
theorem check_rate_limit_keep (now : Int) (ip id : String) (rr : RateLimitRule)
    (s : Store) (acc : List Int) (hget : storeGet s (rateKey id ip) = acc)
    (hkeep : ∀ t ∈ acc, now - (rr.window_seconds : Int) < t) :
    check_rate_limit now ip id rr s =
      if rr.requests_per_window ≤ acc.length then
        ((false, rateFailMsg rr), storeSet s (rateKey id ip) acc)
      else
        ((true, ratePassMsg rr (acc.length + 1)),
          storeSet s (rateKey id ip) (acc ++ [now])) := by
  have hf : acc.filter (fun t => now - (rr.window_seconds : Int) < t) = acc :=
    List.filter_eq_self.mpr (fun a ha => by simpa using hkeep a ha)
  simp only [check_rate_limit, hget, hf]

/-- Invariant run of the rate limiter: starting from a stored list acc
of timestamps at or after t0, checks at times inside the window
starting at t0 succeed exactly while the occupancy is below the limit. -/
theorem runChecks_span (rr : RateLimitRule) (ip id : String) (t0 : Int) :
    ∀ (ts : List Int) (s : Store) (acc : List Int),
      storeGet s (rateKey id ip) = acc →
      (∀ t ∈ acc, t0 ≤ t) →
      (∀ t ∈ ts, t0 ≤ t ∧ t < t0 + (rr.window_seconds : Int)) →
      (runChecks rr ip id ts s).1 =
        (List.range ts.length).map
          (fun i => decide (acc.length + i < rr.requests_per_window)) := by
  intro ts
  induction ts with
  | nil => intro s acc _ _ _; simp [runChecks]
  | cons t ts ih =>
    intro s acc hget hacc hspan
    have ht := hspan t (List.mem_cons_self t ts)
    have hkeep : ∀ x ∈ acc, t - (rr.window_seconds : Int) < x := by
      intro x hx
      have hx0 := hacc x hx
      omega
    have hcheck := check_rate_limit_keep t ip id rr s acc hget hkeep
    have hspan1 : ∀ x ∈ ts, t0 ≤ x ∧ x < t0 + (rr.window_seconds : Int) :=
      fun x hx => hspan x (List.mem_cons_of_mem _ hx)
    by_cases hL : rr.requests_per_window ≤ acc.length
    · rw [if_pos hL] at hcheck
      have hrec := ih (storeSet s (rateKey id ip) acc) acc
        (storeGet_storeSet s (rateKey id ip) acc) hacc hspan1
      simp only [runChecks, hcheck, hrec, List.range_succ_eq_map, List.map_cons,
        List.map_map, List.length_cons]
      congr 1
      · exact (decide_eq_false (by omega)).symm
      · apply List.map_congr_left
        intro i _
        simp only [Function.comp_apply]
        have h1 : ¬ (acc.length + i < rr.requests_per_window) := by omega
        have h2 : ¬ (acc.length + Nat.succ i < rr.requests_per_window) := by omega
        simp [h1, h2]
    · rw [if_neg hL] at hcheck
      have hacc1 : ∀ x ∈ acc ++ [t], t0 ≤ x := by
        intro x hx
        rcases List.mem_append.mp hx with h | h
        · exact hacc x h
        · rcases List.mem_singleton.mp h with rfl
          exact ht.1
      have hrec := ih (storeSet s (rateKey id ip) (acc ++ [t])) (acc ++ [t])
        (storeGet_storeSet s (rateKey id ip) (acc ++ [t])) hacc1 hspan1
      simp only [runChecks, hcheck, hrec, List.range_succ_eq_map, List.map_cons,
        List.map_map, List.length_cons, List.length_append, List.length_singleton,
        List.length_nil]
      congr 1
      · exact (decide_eq_true (by omega)).symm
      · apply List.map_congr_left
        intro i _
        simp only [Function.comp_apply]
        exact decide_eq_decide.mpr (by omega)

/-- Claim C1: a chargeable rate-limit check first drops all stored
timestamps at or before now minus the window; if the remaining count
reaches the limit it fails, stores exactly the pruned list (appending
nothing), and reports the exceeded message; otherwise it appends now
and succeeds reporting the new occupancy over the limit. Consequently,
starting from an empty entry, of any sequence of chargeable checks
lying within one window-length span that starts at the first check,
exactly the first limit-many succeed and every later one, in
particular the one after the limit, fails. -/
theorem C1_sliding_window_rate_limiter :
    (∀ (now : Int) (ip id : String) (rr : RateLimitRule) (store : Store)
        (pruned : List Int),
      pruned = (storeGet store (rateKey id ip)).filter
          (fun t => now - (rr.window_seconds : Int) < t) →
      (rr.requests_per_window ≤ pruned.length →
        check_rate_limit now ip id rr store =
          ((false, rateFailMsg rr), storeSet store (rateKey id ip) pruned)) ∧
      (pruned.length < rr.requests_per_window →
        check_rate_limit now ip id rr store =
          ((true, ratePassMsg rr (pruned.length + 1)),
            storeSet store (rateKey id ip) (pruned ++ [now])))) ∧
    (∀ (rr : RateLimitRule) (ip id : String) (t0 : Int) (ts : List Int),
      0 < rr.window_seconds →
      (∀ t ∈ ts, t0 ≤ t ∧ t < t0 + (rr.window_seconds : Int)) →
      (runChecks rr ip id (t0 :: ts) []).1 =
        (List.range (ts.length + 1)).map
          (fun i => decide (i < rr.requests_per_window))) := by
  constructor
  · intro now ip id rr store pruned hpr
    constructor
    · intro h
      simp only [check_rate_limit, ← hpr, if_pos h]
    · intro h
      simp only [check_rate_limit, ← hpr, if_neg (Nat.not_le.mpr h)]
  · intro rr ip id t0 ts hW hspan
    have hspan0 : ∀ t ∈ t0 :: ts, t0 ≤ t ∧ t < t0 + (rr.window_seconds : Int) := by
      intro t htm
      rcases List.mem_cons.mp htm with rfl | h
      · exact ⟨le_refl _, by omega⟩
      · exact hspan t h
    have h := runChecks_span rr ip id t0 (t0 :: ts) [] [] rfl (by intro x hx; cases hx) hspan0
    rw [h]
    simp only [List.length_cons, List.length_nil]
    apply List.map_congr_left
    intro i _
    exact decide_eq_decide.mpr (by omega)

/-- Witness for C1: at limit 2 and window 10, a stored entry [0, 6, 7]
checked at time 11 prunes to [6, 7] and fails without appending, and a
run of three checks at times 0, 1, 2 gives success, success, failure. -/
theorem C1_sliding_window_rate_limiter_witness :
    (check_rate_limit 11 "c" "p" ⟨true, 2, 10⟩ [("p:c", [0, 6, 7])] =
      ((false, rateFailMsg ⟨true, 2, 10⟩), [("p:c", [6, 7])])) ∧
    (runChecks ⟨true, 2, 10⟩ "c" "p" [0, 1, 2] []).1 =
      (List.range 3).map (fun i => decide (i < 2)) := by
  constructor
  · have h := (C1_sliding_window_rate_limiter.1 11 "c" "p" ⟨true, 2, 10⟩
      [("p:c", [0, 6, 7])] [6, 7] (by decide)).1 (by decide)
    rw [h]
    decide
  · have h := C1_sliding_window_rate_limiter.2 ⟨true, 2, 10⟩ "c" "p" 0 [1, 2]
      (by decide) (by decide)
    simpa using h

theorem checkRequiredClaims_none_iff (d : Claims) (rc : List (String × JValue)) :
    checkRequiredClaims d rc = none ↔ ∀ kv ∈ rc, claimGet d kv.1 = some kv.2 := by
  induction rc with
  | nil => simp [checkRequiredClaims]
  | cons kv rest ih =>
    obtain ⟨k, v⟩ := kv
    simp only [checkRequiredClaims, List.mem_cons, forall_eq_or_imp]
    cases hg : claimGet d k with
    | none => simp
    | some a =>
      by_cases hav : a = v
      · subst hav
        simp [ih]
      · simp [hav]

theorem validateExp_spec (now : Int) (d : Claims) (h : expOkClaims d = true) :
    ∃ r, validateExp now d = .ok r ∧
      (r.1 = false ↔ ∃ n, claimGet d "exp" = some (.num n) ∧ n < now) := by
  cases hg : claimGet d "exp" with
  | none =>
    refine ⟨(true, "JWT validation passed"), by simp [validateExp, hg], ?_⟩
    simp [hg]
  | some jv =>
    cases jv with
    | num n =>
      by_cases hlt : n < now
      · refine ⟨(false, "Token expired"), by simp [validateExp, hg, hlt], ?_⟩
        simp [hg]
        omega
      · refine ⟨(true, "JWT validation passed"), by simp [validateExp, hg, hlt], ?_⟩
        simp [hg]
        omega
    | str s =>
      rw [expOkClaims, hg] at h
      cases h
    | null =>
      rw [expOkClaims, hg] at h
      cases h

theorem validateClaims_spec (now : Int) (d : Claims) (j : JWTRule)
    (h : expOkClaims d = true) :
    ∃ r, validateClaims now d j = .ok r ∧
      (r.1 = false ↔
        ((∃ rc, j.required_claims = some rc ∧ ∃ kv ∈ rc, claimGet d kv.1 ≠ some kv.2) ∨
          ∃ n, claimGet d "exp" = some (.num n) ∧ n < now)) := by
  cases hrc : j.required_claims with
  | none =>
    obtain ⟨r, hr, hiff⟩ := validateExp_spec now d h
    refine ⟨r, by simp [validateClaims, hrc, hr], ?_⟩
    rw [hiff]
    constructor
    · exact Or.inr
    · rintro (⟨rc, hrc2, _⟩ | h2)
      · cases hrc2
      · exact h2
  | some rc =>
    cases hck : checkRequiredClaims d rc with
    | some reason =>
      refine ⟨(false, reason), by simp [validateClaims, hrc, hck], ?_⟩
      have hnotall : ¬ ∀ kv ∈ rc, claimGet d kv.1 = some kv.2 := by
        rw [← checkRequiredClaims_none_iff, hck]
        simp
      push_neg at hnotall
      obtain ⟨kv, hkv, hne⟩ := hnotall
      exact iff_of_true rfl (Or.inl ⟨rc, rfl, kv, hkv, hne⟩)
    | none =>
      obtain ⟨r, hr, hiff⟩ := validateExp_spec now d h
      refine ⟨r, by simp [validateClaims, hrc, hck, hr], ?_⟩
      rw [hiff]
      constructor
      · exact Or.inr
      · rintro (⟨rc2, hrc2, kv, hkv, hne⟩ | h2)
        · injection hrc2 with hrc2
          subst hrc2
          exact absurd ((checkRequiredClaims_none_iff d rc).mp hck kv hkv) hne
        · exact h2

theorem validateAud_spec (now : Int) (d : Claims) (j : JWTRule)
    (h : expOkClaims d = true) :
    ∃ r, validateAud now d j = .ok r ∧
      (r.1 = false ↔
        ((∃ aud, j.audience = some aud ∧ aud ≠ "" ∧ claimGet d "aud" ≠ some (.str aud)) ∨
          (∃ rc, j.required_claims = some rc ∧ ∃ kv ∈ rc, claimGet d kv.1 ≠ some kv.2) ∨
          ∃ n, claimGet d "exp" = some (.num n) ∧ n < now)) := by
  cases haud : j.audience with
  | none =>
    obtain ⟨r, hr, hiff⟩ := validateClaims_spec now d j h
    refine ⟨r, by simp [validateAud, haud, hr], ?_⟩
    rw [hiff]
    constructor
    · exact Or.inr
    · rintro (⟨aud, haud2, _⟩ | h2)
      · cases haud2
      · exact h2
  | some aud =>
    by_cases hc : aud ≠ "" ∧ claimGet d "aud" ≠ some (.str aud)
    · refine ⟨(false, "Invalid audience. Expected: " ++ aud),
        by simp only [validateAud, haud, if_pos hc], ?_⟩
      exact iff_of_true rfl (Or.inl ⟨aud, rfl, hc.1, hc.2⟩)
    · obtain ⟨r, hr, hiff⟩ := validateClaims_spec now d j h
      refine ⟨r, by simp only [validateAud, haud, if_neg hc, hr], ?_⟩
      rw [hiff]
      constructor
      · exact Or.inr
      · rintro (⟨aud2, haud2, hne, hcg⟩ | h2)
        · injection haud2 with haud2
          subst haud2
          exact absurd ⟨hne, hcg⟩ hc
        · exact h2

/-- Counterexample to C4 as stated: the rule sets issuer to the empty
string and the token carries a different iss claim, so the claimed
failure condition (issuer is set and iss differs) holds, yet the code
skips the check by Python truthiness and returns true. -/
theorem C4_truthiness_counterexample :
    jwtFailSpec 0 (.valid [("iss", .str "x")]) ⟨true, none, some "", none⟩ ∧
    validate_jwt_token 0 (.valid [("iss", .str "x")]) ⟨true, none, some "", none⟩ =
      .ok (true, "JWT validation passed") := by
  constructor
  · simp only [jwtFailSpec]
    exact Or.inl ⟨"", rfl, by decide⟩
  · rfl

/-- Claim C4 (amended): provided the exp claim, when present, is
numeric, validate_jwt_token returns false exactly when the token is
undecodable, or the issuer is set to a non-empty string and the iss
claim differs, or the audience is set to a non-empty string and the
aud claim differs, or some required claim is absent or differs, or the
exp claim is strictly before the evaluation clock; it returns true
otherwise. -/
theorem C4_jwt_validation (now : Int) (tok : Token) (j : JWTRule)
    (h : expOkToken tok = true) :
    ∃ r, validate_jwt_token now tok j = .ok r ∧
      (r.1 = false ↔ jwtFailCond now tok j) := by
  cases tok with
  | invalid err =>
    refine ⟨(false, "Invalid JWT token: " ++ err), rfl, ?_⟩
    simp [jwtFailCond]
  | valid d =>
    have hd : expOkClaims d = true := h
    cases hiss : j.issuer with
    | none =>
      obtain ⟨r, hr, hiff⟩ := validateAud_spec now d j hd
      refine ⟨r, by simp [validate_jwt_token, hiss, hr], ?_⟩
      simp only [jwtFailCond]
      rw [hiff]
      constructor
      · exact Or.inr
      · rintro (⟨iss, hiss2, _⟩ | h2)
        · rw [hiss] at hiss2
          cases hiss2
        · exact h2
    | some iss =>
      by_cases hc : iss ≠ "" ∧ claimGet d "iss" ≠ some (.str iss)
      · refine ⟨(false, "Invalid issuer. Expected: " ++ iss),
          by simp only [validate_jwt_token, hiss, if_pos hc], ?_⟩
        simp only [jwtFailCond]
        refine iff_of_true trivial (Or.inl ⟨iss, hiss, hc.1, hc.2⟩)
      · obtain ⟨r, hr, hiff⟩ := validateAud_spec now d j hd
        refine ⟨r, by simp only [validate_jwt_token, hiss, if_neg hc, hr], ?_⟩
        simp only [jwtFailCond]
        rw [hiff]
        constructor
        · exact Or.inr
        · rintro (⟨iss2, hiss2, hne, hcg⟩ | h2)
          · rw [hiss] at hiss2
            injection hiss2 with hiss2
            subst hiss2
            exact absurd ⟨hne, hcg⟩ hc
          · exact h2

/-- Witness for C4: a rule demanding the role admin claim, evaluated on
a token whose role claim is user. -/
theorem C4_jwt_validation_witness :
    expOkToken (.valid [("role", .str "user")]) = true ∧
    ∃ r, validate_jwt_token 5 (.valid [("role", .str "user")])
        ⟨true, some [("role", .str "admin")], none, none⟩ = .ok r ∧
      (r.1 = false ↔ jwtFailCond 5 (.valid [("role", .str "user")])
        ⟨true, some [("role", .str "admin")], none, none⟩) :=
  ⟨rfl, C4_jwt_validation 5 (.valid [("role", .str "user")])
    ⟨true, some [("role", .str "admin")], none, none⟩ rfl⟩

/-- Counterexample to C5 as stated: a stored private template owned by
alice, read by bob, yields 403, while a nonexistent id yields 404 —
the two signals are distinguishable, contrary to the claim. -/
theorem C5_template_forbidden_counterexample :
    get_rule_template [("t1", ⟨false, some "alice"⟩)] "t1" "bob" = .error 403 ∧
    get_rule_template [("t1", ⟨false, some "alice"⟩)] "missing" "bob" = .error 404 ∧
    (403 : Nat) ≠ 404 :=
  ⟨rfl, rfl, by decide⟩

/-- Claim C5 (amended): for policies (rule sets), read, delete and
simulate by a non-owner produce the same 404 as a nonexistent id; but
rule templates and exploit scenarios that exist, are not public and are
owned by someone else produce 403 on read, apply and test, which is
distinguishable from the 404 of a nonexistent id. -/
theorem C5_ownership_not_found :
    (∀ (rules : RulesStore) (id uid : String),
      (assoc rules id = none ∨ ∃ o, assoc rules id = some o ∧ o ≠ some uid) →
      get_rule_set rules id uid = .error 404 ∧
      delete_rule_set rules id uid = .error 404 ∧
      simulate_gate rules id uid = .error 404) ∧
    (∀ (stored : List (String × PubOwned)) (id uid : String) (t : PubOwned),
      assoc stored id = some t → t.is_public = false → t.userId ≠ some uid →
      get_rule_template stored id uid = .error 403 ∧
      apply_rule_template stored id uid = .error 403 ∧
      get_exploit_scenario stored id uid = .error 403) := by
  constructor
  · rintro rules id uid (h | ⟨o, ho, hne⟩)
    · exact ⟨by simp [get_rule_set, h], by simp [delete_rule_set, h],
        by simp [simulate_gate, h]⟩
    · exact ⟨by simp [get_rule_set, ho, hne], by simp [delete_rule_set, ho, hne],
        by simp [simulate_gate, ho, hne]⟩
  · intro stored id uid t ht hpub hne
    exact ⟨by simp [get_rule_template, ht, hpub, hne],
      by simp [apply_rule_template, ht, hpub, hne],
      by simp [get_exploit_scenario, ht, hpub, hne]⟩

/-- Witness for C5 (amended): alice owns rule set r1 and private
template t1; bob reads, deletes and simulates r1 (all 404) and reads,
applies and tests t1 (all 403). -/
theorem C5_ownership_not_found_witness :
    (get_rule_set [("r1", some "alice")] "r1" "bob" = .error 404 ∧
     delete_rule_set [("r1", some "alice")] "r1" "bob" = .error 404 ∧
     simulate_gate [("r1", some "alice")] "r1" "bob" = .error 404) ∧
    (get_rule_template [("t1", ⟨false, some "alice"⟩)] "t1" "bob" = .error 403 ∧
     apply_rule_template [("t1", ⟨false, some "alice"⟩)] "t1" "bob" = .error 403 ∧
     get_exploit_scenario [("t1", ⟨false, some "alice"⟩)] "t1" "bob" = .error 403) :=
  ⟨C5_ownership_not_found.1 [("r1", some "alice")] "r1" "bob"
      (Or.inr ⟨some "alice", rfl, by decide⟩),
    C5_ownership_not_found.2 [("t1", ⟨false, some "alice"⟩)] "t1" "bob"
      ⟨false, some "alice"⟩ rfl rfl (by decide)⟩

/-- Claim C7: the OAuth2 stage computes the set difference of required
minus provided scopes; it passes exactly when that set is empty (in
particular an empty required list always passes), and every missing
scope is reported. The reported value is the set itself: the source
converts a Python set to a list, so the input order of required_scopes
is not preserved in general. The last conjunct evaluates the stage at
the failing input of two missing scopes. -/
theorem C7_oauth_missing_scopes :
    (∀ (required provided : List String),
      (missing_scopes required provided).toFinset =
        required.toFinset \ provided.toFinset) ∧
    (∀ (required provided : List String),
      (missing_scopes required provided = [] ↔ ∀ s ∈ required, s ∈ provided)) ∧
    (∀ provided : List String, missing_scopes [] provided = []) ∧
    (missing_scopes ["scope_b", "scope_a"] []).toFinset = {"scope_b", "scope_a"} ∧
    oauthStep policyOauth reqStub "u" [] =
      .inl (blockedResult "oauth2_validation"
        ("Missing required OAuth2 scopes: " ++
          toString (missing_scopes ["scope_b", "scope_a"] [])) [] "u") := by
  refine ⟨?_, ?_, ?_, ?_, ?_⟩
  · intro required provided
    ext a
    simp [missing_scopes, List.mem_dedup, List.mem_filter, Finset.mem_sdiff]
  · intro required provided
    simp [missing_scopes, List.dedup_eq_nil, List.filter_eq_nil_iff]
  · intro provided
    rfl
  · rfl
  · rfl

/-- Counterexample to C8 as stated: a header regex rule with the
unparsable pattern consisting of one opening bracket, evaluated on a
request without the header, fails with the not-found reason, not with
the invalid-pattern reason the claim promises for every request. -/
theorem C8_missing_header_counterexample :
    reStub.ok "[" = false ∧
    validate_header_rule reStub [] ⟨"H", "regex", some "["⟩ =
      some (false, "Header H not found") ∧
    "Header H not found" ≠ "Invalid regex pattern: [" := by
  refine ⟨by decide, rfl, by decide⟩

/-- Claim C8 (amended): a regex rule with an unparsable non-empty
pattern yields the failing match Invalid regex pattern: pattern —
without raising — whenever the regex test is actually reached: for a
header rule, when the header is present; for a path rule, when the
method restriction passes. Earlier failures (missing header, method
not allowed) report their own reasons. -/
theorem C8_invalid_regex_degrades (e : RegexEngine) :
    (∀ (headers : List (String × String)) (hr : HeaderRule) (p v : String),
      hr.condition = "regex" → hr.value = some p → p ≠ "" → e.ok p = false →
      assoc headers hr.header_name = some v →
      validate_header_rule e headers hr =
        some (false, "Invalid regex pattern: " ++ p)) ∧
    (∀ (method path : String) (pr : PathRule),
      pr.condition = "regex" → e.ok pr.path_pattern = false →
      (pr.methods = [] ∨ (pr.methods.map upperKey).contains (upperKey method) = true) →
      validate_path_rule e method path pr =
        some (false, "Invalid regex pattern: " ++ pr.path_pattern)) := by
  constructor
  · intro headers hr p v hcond hval hp hok hv
    simp [validate_header_rule, hcond, hval, hv, hp, pySearch, hok]
  · intro method path pr hcond hok hm
    rcases hm with hm | hm
    · simp [validate_path_rule, hcond, hm, pySearch, hok]
    · have hcond2 : ¬ (pr.methods ≠ [] ∧
          ¬ (pr.methods.map upperKey).contains (upperKey method) = true) :=
        fun hc => hc.2 hm
      unfold validate_path_rule
      rw [if_neg hcond2, hcond]
      simp [pySearch, hok]

/-- Witness for C8 (amended): the bracket pattern on a present header
and on a path rule without method restriction. -/
theorem C8_invalid_regex_degrades_witness :
    validate_header_rule reStub [("H", "v")] ⟨"H", "regex", some "["⟩ =
      some (false, "Invalid regex pattern: [") ∧
    validate_path_rule reStub "GET" "/x" ⟨[], "[", "regex"⟩ =
      some (false, "Invalid regex pattern: [") :=
  ⟨(C8_invalid_regex_degrades reStub).1 [("H", "v")] ⟨"H", "regex", some "["⟩ "[" "v"
      rfl rfl (by decide) (by decide) rfl,
    (C8_invalid_regex_degrades reStub).2 "GET" "/x" ⟨[], "[", "regex"⟩
      rfl (by decide) (Or.inl rfl)⟩

theorem scenarioEval_frame (M : IpModule) (now : Int) (rs rs2 : FirewallRuleSet)
    (req : SimulationRequest) (h1 : rs.ip_rules = rs2.ip_rules)
    (h2 : rs.jwt_validation = rs2.jwt_validation)
    (h3 : rs.default_action = rs2.default_action) :
    scenarioEval M now rs req = scenarioEval M now rs2 req := by
  unfold scenarioEval scenarioJwt scenarioIp scenarioDefault
  rw [h1, h2, h3]

theorem scenarioDecisions_frame (M : IpModule) (now : Int) (rs rs2 : FirewallRuleSet)
    (rid uid : String) (h1 : rs.ip_rules = rs2.ip_rules)
    (h2 : rs.jwt_validation = rs2.jwt_validation)
    (h3 : rs.default_action = rs2.default_action) :
    ∀ tests, scenarioDecisions M now rs rid uid tests =
      scenarioDecisions M now rs2 rid uid tests := by
  intro tests
  induction tests with
  | nil => rfl
  | cons tr rest ih =>
    unfold scenarioDecisions
    rw [scenarioEval_frame M now rs rs2 _ h1 h2 h3, ih]

theorem scenarioDecisions_length (M : IpModule) (now : Int) (rs : FirewallRuleSet)
    (rid uid : String) :
    ∀ (tests : List ScenarioTestRequest) (ds : List String),
      scenarioDecisions M now rs rid uid tests = .ok ds → ds.length = tests.length := by
  intro tests
  induction tests with
  | nil =>
    intro ds h
    simp only [scenarioDecisions, Except.ok.injEq] at h
    subst h
    rfl
  | cons tr rest ih =>
    intro ds h
    unfold scenarioDecisions at h
    cases he : scenarioEval M now rs (mkSimRequest rid uid tr) with
    | error s =>
      rw [he] at h
      cases h
    | ok st =>
      rw [he] at h
      cases hr : scenarioDecisions M now rs rid uid rest with
      | error s =>
        rw [hr] at h
        cases h
      | ok ds2 =>
        rw [hr] at h
        simp only [Except.ok.injEq] at h
        subst h
        simp [ih ds2 hr]

theorem countPassed_le (ds : List String) : ∀ es, countPassed ds es ≤ ds.length := by
  induction ds with
  | nil =>
    intro es
    simp [countPassed]
  | cons d rest ih =>
    intro es
    simp only [countPassed, List.length_cons]
    have h := ih (es.drop 1)
    split <;> omega

/-- Claim C6: the scenario test run computes each actual decision with
the reduced replay, which reads only the IP rule, the JWT rule and the
default action of the policy (not its OAuth2, rate-limit, header or
path rules) — first conjunct; and it reports total, the count of
decisions matching the expected ones (BLOCKED past the end of the
expected list), and a coverage score of passed over total times 100,
with 0 when there are no tests — second conjunct. -/
theorem C6_scenario_reduced_replay :
    (∀ (M : IpModule) (now : Int) (rs rs2 : FirewallRuleSet) (rid uid : String)
        (tests : List ScenarioTestRequest) (expected : List String),
      rs.ip_rules = rs2.ip_rules → rs.jwt_validation = rs2.jwt_validation →
      rs.default_action = rs2.default_action →
      test_exploit_scenario M now rs rid uid tests expected =
        test_exploit_scenario M now rs2 rid uid tests expected) ∧
    (∀ (M : IpModule) (now : Int) (rs : FirewallRuleSet) (rid uid : String)
        (tests : List ScenarioTestRequest) (expected : List String)
        (sc : ScenarioScore),
      test_exploit_scenario M now rs rid uid tests expected = .ok sc →
      sc.total_tests = tests.length ∧ sc.passed_tests ≤ sc.total_tests ∧
      sc.failed_tests = sc.total_tests - sc.passed_tests ∧
      sc.coverage_score = (if sc.total_tests = 0 then (0 : ℚ) else
        ((sc.passed_tests : ℚ) / ((sc.total_tests : Nat) : ℚ)) * 100) ∧
      ∃ ds, scenarioDecisions M now rs rid uid tests = .ok ds ∧
        ds.length = tests.length ∧ sc.passed_tests = countPassed ds expected) := by
  constructor
  · intro M now rs rs2 rid uid tests expected h1 h2 h3
    unfold test_exploit_scenario
    rw [scenarioDecisions_frame M now rs rs2 rid uid h1 h2 h3 tests]
  · intro M now rs rid uid tests expected sc h
    unfold test_exploit_scenario at h
    cases hd : scenarioDecisions M now rs rid uid tests with
    | error s =>
      rw [hd] at h
      cases h
    | ok ds =>
      rw [hd] at h
      simp only [Except.ok.injEq] at h
      subst h
      have hlen := scenarioDecisions_length M now rs rid uid tests ds hd
      refine ⟨rfl, ?_, rfl, ?_, ds, rfl, hlen, rfl⟩
      · calc countPassed ds expected ≤ ds.length := countPassed_le ds expected
          _ = tests.length := hlen
      · show coverageScore (countPassed ds expected) tests.length = _
        unfold coverageScore
        rcases Nat.eq_zero_or_pos tests.length with h0 | h0
        · simp [h0]
        · rw [if_pos h0, if_neg (Nat.pos_iff_ne_zero.mp h0)]

/-- Witness for C6: a one-request scenario expecting BLOCKED, run first
against the empty default-block policy and against the same policy
with OAuth2, rate-limit, header and path rules added (same outcome by
the frame conjunct), then scored: one test, one pass, coverage 1/1
times 100. -/
theorem C6_scenario_reduced_replay_witness :
    (test_exploit_scenario ipStub 0 (policyNoRules "block") "r" "u" [trStub] ["BLOCKED"] =
      test_exploit_scenario ipStub 0 policyExtras "r" "u" [trStub] ["BLOCKED"]) ∧
    ((1 : Nat) = [trStub].length ∧ (1 : Nat) ≤ 1 ∧ (0 : Nat) = 1 - 1 ∧
      coverageScore 1 1 = (if (1 : Nat) = 0 then (0 : ℚ) else
        (((1 : Nat) : ℚ) / (((1 : Nat) : Nat) : ℚ)) * 100) ∧
      ∃ ds, scenarioDecisions ipStub 0 (policyNoRules "block") "r" "u" [trStub] =
          .ok ds ∧
        ds.length = [trStub].length ∧ (1 : Nat) = countPassed ds ["BLOCKED"]) :=
  ⟨C6_scenario_reduced_replay.1 ipStub 0 (policyNoRules "block") policyExtras
      "r" "u" [trStub] ["BLOCKED"] rfl rfl rfl,
    C6_scenario_reduced_replay.2 ipStub 0 (policyNoRules "block") "r" "u" [trStub]
      ["BLOCKED"] ⟨1, 1, 0, coverageScore 1 1⟩ (by rfl)⟩

end ZeroPass
